import Mathlib

/-
Verification of the HealthCare-translator-ai frontend `Translator` component.

The repository ships two versions of the component (src/unnamed/part_000 and
src/unnamed/part_001), both React function components whose observable logic
is a handful of state variables (`recording`, `translated`, `original`,
`notes`, `srcLang`, `tgtLang`, `status`), a `shouldAutoPlayRef` flag, and the
functions `startRecording`, `stopRecording`, `sendChunk`, `autoSpeak`,
`manualSpeak`.

The shallow embedding below models the component state as a record.  JS
string truthiness (`if (s)`) is modelled as `s ≠ ""` — the backend contract
makes all the relevant JSON fields strings.  The browser speech-synthesis
queue is modelled as a list of utterances: `speechSynthesis.cancel()`
empties it, `speak(u)` appends `u`, so `cancel(); speak(u)` yields `[u]`.
The 3-second chunk cadence and the 350 ms settle timer are modelled by the
order in which the step functions are applied, not by real time.  React
closure semantics matter for the settle timer: the `setX(prev => ...)`
functional updaters of `sendChunk` act on live committed state, but the
`autoSpeak` closure the timer invokes reads the `translated` / `tgtLang`
consts of the render in which `startRecording` ran, a pre-session snapshot
(`autoSpeakStale` below); only the `shouldAutoPlayRef` ref and the speech
queue are live there.
-/

/-- A speech-synthesis utterance: `new SpeechSynthesisUtterance(text)` with
`u.lang = lang`. -/
structure Utterance where
  text : String
  lang : String
deriving DecidableEq, Repr

/-- The component state of the `Translator` component: the React `useState`
variables, the `shouldAutoPlayRef` ref, whether the MediaRecorder cadence is
active, and the speech-synthesis queue (an external resource the component
mutates). -/
structure TranslatorState where
  recording : Bool
  translated : String
  original : String
  notes : String
  srcLang : String
  tgtLang : String
  status : String
  shouldAutoPlay : Bool
  recorderActive : Bool
  speech : List Utterance
deriving DecidableEq, Repr

/-- The decoded JSON body of one chunk response
(`data` in `sendChunk`).  A missing / falsy field is the empty string. -/
structure ChunkResp where
  original : String
  transcript : String
  source : String
  text : String
  translation : String
  notes : String
deriving DecidableEq, Repr

/-- The abstract status enum of the spec. -/
inductive SpecStatus where
  | Idle
  | Listening
  | Stopped
  | Error
deriving DecidableEq, Repr

/-- Abstraction from the concrete status strings of the component to the abstract
status enum: `"Idle"`, `"Listening..."`, `"Stopped"` map to the corresponding
enum value and every other message (microphone denial, recorder fault) is an
`Error` status. -/
def statusAbs (m : String) : SpecStatus :=
  if m = "Idle" then .Idle
  else if m = "Listening..." then .Listening
  else if m = "Stopped" then .Stopped
  else .Error

/-- JS `prev ? prev + " " + x : x` (used for `original` and `translated`). -/
def joinSpace (prev x : String) : String :=
  if prev = "" then x else prev ++ " " ++ x

/-- JS `prev ? prev + " | " + x : x` (used for `notes`). -/
def joinPipe (prev x : String) : String :=
  if prev = "" then x else prev ++ " | " ++ x

/-- JS `data.original || data.transcript || data.source || data.text`:
the first truthy (non-empty) field, else the last one. -/
def origCandidate (r : ChunkResp) : String :=
  if r.original ≠ "" then r.original
  else if r.transcript ≠ "" then r.transcript
  else if r.source ≠ "" then r.source
  else r.text

/-- ASCII case folding, the case-insensitivity the `/i` regex flag applies to
the three all-ASCII alternatives. -/
def lowerChar (c : Char) : Char :=
  if 'A' ≤ c ∧ c ≤ 'Z' then Char.ofNat (c.toNat + 32) else c

/-- Does the pattern occur at the start of the list? -/
def startsWith : List Char → List Char → Bool
  | [], _ => true
  | _ :: _, [] => false
  | p :: ps, c :: cs => p = c && startsWith ps cs

/-- Does the pattern occur anywhere in the list? -/
def hasSub (pat : List Char) : List Char → Bool
  | [] => startsWith pat []
  | c :: cs => startsWith pat (c :: cs) || hasSub pat cs

/-- The regex `/corrupt|unsupported audio|deepgram error/i.test(n)`:
case-insensitive substring match of any of the three alternatives. -/
def noteFiltered (n : String) : Bool :=
  hasSub "corrupt".data (n.data.map lowerChar) ||
  hasSub "unsupported audio".data (n.data.map lowerChar) ||
  hasSub "deepgram error".data (n.data.map lowerChar)

namespace Part000

/-- `startRecording` of src/unnamed/part_000 (lines 48–89): clears the three
text fields, sets status `"Listening..."`, arms `shouldAutoPlayRef`; then
requests the microphone — on success starts the 3-second recorder cadence
and sets `recording`, on failure (`deviceOk = false`) sets the error status
message and starts nothing. -/
def startRecording (deviceOk : Bool) (s : TranslatorState) : TranslatorState :=
  let s := { s with translated := "", original := "", notes := "",
                    status := "Listening...", shouldAutoPlay := true }
  if deviceOk then
    { s with recorderActive := true, recording := true }
  else
    { s with status := "Microphone access denied or not available" }

/-- `stopRecording` (lines 91–100) together with the recorder `onstop`
handler (lines 69–75): stops the recorder cadence and the stream, sets
`recording := false` and status `"Stopped"`.  The 350 ms settle timer that
`onstop` schedules is modelled as a separate later `autoSpeak` step. -/
def stopRecording (s : TranslatorState) : TranslatorState :=
  { s with recording := false, recorderActive := false, status := "Stopped" }

/-- The success path of `sendChunk` (lines 114–136): merge one decoded chunk
response into the state.  Appends the original-text candidate when truthy,
appends `data.translation` when truthy, and appends `data.notes` when truthy
and not matching the filter regex.  (The `console.debug` branch at lines
133–136 has no state effect.) -/
def mergeSuccess (s : TranslatorState) (r : ChunkResp) : TranslatorState :=
  let s := if origCandidate r ≠ "" then
             { s with original := joinSpace s.original (origCandidate r) }
           else s
  let s := if r.translation ≠ "" then
             { s with translated := joinSpace s.translated r.translation }
           else s
  let s := if r.notes ≠ "" ∧ noteFiltered r.notes = false then
             { s with notes := joinPipe s.notes r.notes }
           else s
  s

/-- The catch branch of `sendChunk` (lines 137–141): on a failed upload,
append `"Network error"` to `notes` and nothing else. -/
def mergeFailure (s : TranslatorState) : TranslatorState :=
  { s with notes := joinPipe s.notes "Network error" }

/-- `autoSpeak` (lines 144–151): if `translated` is truthy and the auto-play
right is still armed, cancel any current utterance, speak `translated` with
the target language, and disarm the right; otherwise do nothing. -/
def autoSpeak (s : TranslatorState) : TranslatorState :=
  if s.translated = "" ∨ s.shouldAutoPlay = false then s
  else { s with speech := [⟨s.translated, s.tgtLang⟩], shouldAutoPlay := false }

/-- `manualSpeak` (lines 153–159): if `translated` is truthy, cancel any
current utterance and speak `translated`; it does not touch the auto-play
right.  If `translated` is empty it returns immediately. -/
def manualSpeak (s : TranslatorState) : TranslatorState :=
  if s.translated = "" then s
  else { s with speech := [⟨s.translated, s.tgtLang⟩] }

end Part000

namespace Part001

/-- `startRecording` of src/unnamed/part_001 (lines 25–65): clears the three
text fields, sets status `"Listening..."`, arms `shouldAutoPlayRef`; on
microphone grant starts the 3-second recorder cadence and sets `recording`,
on denial sets the error status message and starts nothing. -/
def startRecording (deviceOk : Bool) (s : TranslatorState) : TranslatorState :=
  let s := { s with translated := "", original := "", notes := "",
                    status := "Listening...", shouldAutoPlay := true }
  if deviceOk then
    { s with recorderActive := true, recording := true }
  else
    { s with status := "Microphone access denied or not available" }

/-- `stopRecording` of part_001 (lines 67–76) with its `onstop` handler
(lines 46–51). -/
def stopRecording (s : TranslatorState) : TranslatorState :=
  { s with recording := false, recorderActive := false, status := "Stopped" }

/-- The success path of the part_001 `sendChunk` (lines 90–102): same merges as
part_000; part_001 has no `console.debug` branch at all. -/
def mergeSuccess (s : TranslatorState) (r : ChunkResp) : TranslatorState :=
  let s := if origCandidate r ≠ "" then
             { s with original := joinSpace s.original (origCandidate r) }
           else s
  let s := if r.translation ≠ "" then
             { s with translated := joinSpace s.translated r.translation }
           else s
  let s := if r.notes ≠ "" ∧ noteFiltered r.notes = false then
             { s with notes := joinPipe s.notes r.notes }
           else s
  s

/-- The catch branch of the part_001 `sendChunk` (lines 103–106). -/
def mergeFailure (s : TranslatorState) : TranslatorState :=
  { s with notes := joinPipe s.notes "Network error" }

/-- `autoSpeak` of part_001 (lines 109–116). -/
def autoSpeak (s : TranslatorState) : TranslatorState :=
  if s.translated = "" ∨ s.shouldAutoPlay = false then s
  else { s with speech := [⟨s.translated, s.tgtLang⟩], shouldAutoPlay := false }

/-- `manualSpeak` of part_001 (lines 118–124). -/
def manualSpeak (s : TranslatorState) : TranslatorState :=
  if s.translated = "" then s
  else { s with speech := [⟨s.translated, s.tgtLang⟩] }

end Part001

/-- The settle-time `autoSpeak` call as the program actually executes it.
The 350 ms timer set in `recorder.onstop` invokes the `autoSpeak` closure of
the render in which `startRecording` ran; that closure reads the `translated`
and `tgtLang` consts of that render — the committed values from before the
session reset, never updated by any later `setTranslated` — here the
parameters `capTranslated` and `capTgtLang`.  Only `shouldAutoPlayRef.current`
(a ref) and the speech-synthesis queue are live state: the guard reads the
captured `translated` and the live ref, the utterance is built from the
captured text and language, and the writes (queue, disarming the ref) land in
the live state `s`. -/
def autoSpeakStale (capTranslated capTgtLang : String) (s : TranslatorState) :
    TranslatorState :=
  if capTranslated = "" ∨ s.shouldAutoPlay = false then s
  else { s with speech := [⟨capTranslated, capTgtLang⟩], shouldAutoPlay := false }

/-- Run a list of successful chunk responses through the part_000 merge. -/
def runChunks (s : TranslatorState) (rs : List ChunkResp) : TranslatorState :=
  rs.foldl Part000.mergeSuccess s

/-- The space-joined concatenation of a list of strings. -/
def spaceJoin : List String → String
  | [] => ""
  | [x] => x
  | x :: y :: ys => x ++ " " ++ spaceJoin (y :: ys)

/-- The translation fields of the responses that carry a non-empty
translation, in arrival order. -/
def translationsOf (rs : List ChunkResp) : List String :=
  (rs.map ChunkResp.translation).filter (· ≠ "")

/-- JS `String.prototype.split(sep)` on a character list: splits into the
(always non-empty) list of separator-free fields. -/
def jsSplit (sep : Char) : List Char → List (List Char)
  | [] => [[]]
  | c :: cs =>
    if c = sep then [] :: jsSplit sep cs
    else
      match jsSplit sep cs with
      | [] => [[c]]
      | f :: r => (c :: f) :: r

/-- `tag.split("-")[0]`, the value `sendChunk` puts into the `src_lang` /
`tgt_lang` form fields (part_000 lines 105–106). -/
def formLang (tag : String) : String :=
  String.mk ((jsSplit '-' tag.data).headD [])

/-- Modelled from the spec: "two-letter language code, derived by truncating
the full language tag at its first hyphen" — everything before the first
hyphen. -/
def truncAtFirstHyphen (tag : String) : String :=
  String.mk (tag.data.takeWhile (fun c => ¬ c = '-'))

/-- The multipart form fields of one chunk upload other than the binary
`file` part: (`src_lang`, `tgt_lang`), as built by `sendChunk`
(part_000 lines 102–106). -/
def sendChunkForm (s : TranslatorState) : String × String :=
  (formLang s.srcLang, formLang s.tgtLang)

/-- An initial component state: the `useState` initial values, refs null /
false, empty speech queue. -/
def initState : TranslatorState :=
  { recording := false, translated := "", original := "", notes := ""
  , srcLang := "en-US", tgtLang := "hi-IN", status := "Idle"
  , shouldAutoPlay := false, recorderActive := false, speech := [] }

/-- The committed component state at the end of a first session from a fresh
load: `startRecording` succeeds, one chunk response `{translation: "Hello"}`
is merged, then the recording is stopped.  The `autoSpeak` closure the settle
timer of this session will run captured `initState.translated = ""` and
`initState.tgtLang`. -/
def session1End : TranslatorState :=
  Part000.stopRecording
    (Part000.mergeSuccess (Part000.startRecording true initState)
      ⟨"", "", "", "", "Hello", ""⟩)

/-- The committed state at the end of a second session started from
`session1End` in which no chunk response carries a translation: start, then
stop.  The settle-timer closure of this session captured
`session1End.translated = "Hello"` and `session1End.tgtLang`. -/
def session2End : TranslatorState :=
  Part000.stopRecording (Part000.startRecording true session1End)

example : (Part000.mergeSuccess initState ⟨"", "", "", "", "Hello", ""⟩).translated
    = "Hello" := by decide

example : noteFiltered "Deepgram ERROR in chunk" = true := by decide

example : noteFiltered "minor glitch" = false := by decide

/-! ### Supporting lemmas -/

theorem mergeSuccess_translated (s : TranslatorState) (r : ChunkResp) :
    (Part000.mergeSuccess s r).translated =
      if r.translation ≠ "" then joinSpace s.translated r.translation
      else s.translated := by
  simp only [Part000.mergeSuccess]
  split <;> split <;> split <;> rfl

theorem mergeSuccess_original (s : TranslatorState) (r : ChunkResp) :
    (Part000.mergeSuccess s r).original =
      if origCandidate r ≠ "" then joinSpace s.original (origCandidate r)
      else s.original := by
  simp only [Part000.mergeSuccess]
  split <;> split <;> split <;> rfl

theorem mergeSuccess_notes (s : TranslatorState) (r : ChunkResp) :
    (Part000.mergeSuccess s r).notes =
      if r.notes ≠ "" ∧ noteFiltered r.notes = false then joinPipe s.notes r.notes
      else s.notes := by
  simp only [Part000.mergeSuccess]
  split <;> split <;> split <;> rfl

theorem mergeSuccess_shouldAutoPlay (s : TranslatorState) (r : ChunkResp) :
    (Part000.mergeSuccess s r).shouldAutoPlay = s.shouldAutoPlay := by
  simp only [Part000.mergeSuccess]
  split <;> split <;> split <;> rfl

theorem mergeSuccess_status (s : TranslatorState) (r : ChunkResp) :
    (Part000.mergeSuccess s r).status = s.status := by
  simp only [Part000.mergeSuccess]
  split <;> split <;> split <;> rfl

theorem mergeSuccess_recording (s : TranslatorState) (r : ChunkResp) :
    (Part000.mergeSuccess s r).recording = s.recording := by
  simp only [Part000.mergeSuccess]
  split <;> split <;> split <;> rfl

theorem append_ne_empty (a b : String) (h : a ≠ "") : a ++ b ≠ "" := by
  intro hc
  apply h
  have hd := congrArg String.data hc
  simp [String.data_append] at hd
  exact String.ext hd.1

theorem spaceJoin_append_head (ts : List String) (a b : String) :
    spaceJoin ((a ++ b) :: ts) = a ++ spaceJoin (b :: ts) := by
  cases ts with
  | nil => rfl
  | cons c cs => simp [spaceJoin, String.append_assoc]

theorem foldl_joinSpace (l : List String) (acc : String) (h : acc ≠ "") :
    List.foldl joinSpace acc l = spaceJoin (acc :: l) := by
  induction l generalizing acc with
  | nil => rfl
  | cons t ts ih =>
    have hacc : joinSpace acc t = acc ++ " " ++ t := by simp [joinSpace, h]
    calc List.foldl joinSpace acc (t :: ts)
        = List.foldl joinSpace (joinSpace acc t) ts := rfl
      _ = spaceJoin ((acc ++ " " ++ t) :: ts) := by
            rw [hacc]; exact ih _ (append_ne_empty _ _ (append_ne_empty _ _ h))
      _ = acc ++ " " ++ spaceJoin (t :: ts) := by
            rw [String.append_assoc, spaceJoin_append_head ts acc (" " ++ t),
                spaceJoin_append_head ts " " t, ← String.append_assoc]
      _ = spaceJoin (acc :: t :: ts) := rfl

theorem foldl_joinSpace_of_nonempty (l : List String) (hl : ∀ x ∈ l, x ≠ "") :
    List.foldl joinSpace "" l = spaceJoin l := by
  cases l with
  | nil => rfl
  | cons t ts =>
    have ht : t ≠ "" := hl t (by simp)
    show List.foldl joinSpace (joinSpace "" t) ts = spaceJoin (t :: ts)
    have hj : joinSpace "" t = t := by simp [joinSpace]
    rw [hj, foldl_joinSpace ts t ht]

theorem translationsOf_cons (r : ChunkResp) (rs : List ChunkResp) :
    translationsOf (r :: rs) =
      if r.translation ≠ "" then r.translation :: translationsOf rs
      else translationsOf rs := by
  simp only [translationsOf, List.map, List.filter]
  split <;> rename_i hd
  · simp at hd
    simp [hd]
  · simp at hd
    simp [hd]

theorem translationsOf_nonempty (rs : List ChunkResp) :
    ∀ x ∈ translationsOf rs, x ≠ "" := by
  intro x hx
  simp only [translationsOf, List.mem_filter] at hx
  simpa using hx.2

theorem manualSpeak_shouldAutoPlay (s : TranslatorState) :
    (Part000.manualSpeak s).shouldAutoPlay = s.shouldAutoPlay := by
  simp only [Part000.manualSpeak]
  split <;> rfl

theorem runChunks_translated (rs : List ChunkResp) (s : TranslatorState) :
    (runChunks s rs).translated =
      List.foldl joinSpace s.translated (translationsOf rs) := by
  induction rs generalizing s with
  | nil => rfl
  | cons r rs ih =>
    show (runChunks (Part000.mergeSuccess s r) rs).translated = _
    rw [ih, translationsOf_cons, mergeSuccess_translated]
    by_cases h : r.translation = ""
    · simp [h]
    · simp [h]

theorem jsSplit_ne_nil (sep : Char) (l : List Char) : jsSplit sep l ≠ [] := by
  cases l with
  | nil => simp [jsSplit]
  | cons c cs =>
    simp only [jsSplit]
    split
    · simp
    · split <;> simp

theorem jsSplit_headD (sep : Char) (l : List Char) :
    (jsSplit sep l).headD [] = l.takeWhile (fun c => ¬ c = sep) := by
  induction l with
  | nil => rfl
  | cons c cs ih =>
    simp only [jsSplit]
    by_cases h : c = sep
    · simp [h, List.takeWhile]
    · simp only [if_neg h]
      cases hs : jsSplit sep cs with
      | nil => exact absurd hs (jsSplit_ne_nil sep cs)
      | cons f r =>
        rw [hs] at ih
        simp only [List.headD] at ih ⊢
        simp [List.takeWhile, h, ih]

theorem joinSpace_pref (p x : String) : ∃ t, joinSpace p x = p ++ t := by
  by_cases h : p = ""
  · exact ⟨x, by simp [joinSpace, h]⟩
  · exact ⟨" " ++ x, by simp [joinSpace, h, String.append_assoc]⟩

theorem joinPipe_pref (p x : String) : ∃ t, joinPipe p x = p ++ t := by
  by_cases h : p = ""
  · exact ⟨x, by simp [joinPipe, h]⟩
  · exact ⟨" | " ++ x, by simp [joinPipe, h, String.append_assoc]⟩

/-! ### Claim theorems -/

/-- C1: for every sequence of chunk responses processed within one session
(in arrival order), the final `translated` state equals the space-joined
concatenation, in arrival order, of the `translation` fields of the
responses carrying a non-empty translation; in particular the responses
`{translation: "Hello"}` then `{translation: "there"}` yield
`"Hello there"`. -/
theorem translated_is_arrival_order_spaceJoin (prev : TranslatorState)
    (rs : List ChunkResp) :
    (runChunks (Part000.startRecording true prev) rs).translated
      = spaceJoin (translationsOf rs)
    ∧ (runChunks (Part000.startRecording true initState)
        [⟨"", "", "", "", "Hello", ""⟩, ⟨"", "", "", "", "there", ""⟩]).translated
      = "Hello there" := by
  constructor
  · rw [runChunks_translated]
    have hstart : (Part000.startRecording true prev).translated = "" := rfl
    rw [hstart]
    exact foldl_joinSpace_of_nonempty _ (translationsOf_nonempty rs)
  · decide

/-- C2: `startRecording` resets `original`, `translated` and `notes` to the
empty string and sets the status to `"Listening..."` (the Listening status of the spec),
whatever the previous session left in the state; any chunk responses of the
new session are merged only onto this reset state (they are folds applied
after the reset).  The text resets happen even when the device request then
fails. -/
theorem startSession_resets (s : TranslatorState) :
    (Part000.startRecording true s).translated = ""
    ∧ (Part000.startRecording true s).original = ""
    ∧ (Part000.startRecording true s).notes = ""
    ∧ statusAbs (Part000.startRecording true s).status = SpecStatus.Listening
    ∧ (Part000.startRecording false s).translated = ""
    ∧ (Part000.startRecording false s).original = ""
    ∧ (Part000.startRecording false s).notes = "" :=
  ⟨rfl, rfl, rfl, rfl, rfl, rfl, rfl⟩

/-- C4: when a chunk upload fails, `"Network error"` is appended to `notes`
(so `notes = "Network error"` exactly when it was empty, and
`notes ++ " | Network error"` otherwise), while `translated`, `original`,
the status (so in particular a Listening status remains Listening), the
recording flag and the recorder cadence are all unchanged — the session is
not aborted, and `mergeFailure` is the entire effect of the failed upload
(no retry exists in the code). -/
theorem uploadFailure_appends_network_error (s : TranslatorState) :
    Part000.mergeFailure s =
      { s with notes := if s.notes = "" then "Network error"
                        else s.notes ++ " | Network error" }
    ∧ (Part000.mergeFailure s).translated = s.translated
    ∧ (Part000.mergeFailure s).original = s.original
    ∧ (Part000.mergeFailure s).status = s.status
    ∧ statusAbs (Part000.mergeFailure s).status = statusAbs s.status
    ∧ (Part000.mergeFailure s).recording = s.recording
    ∧ (Part000.mergeFailure s).recorderActive = s.recorderActive := by
  refine ⟨?_, rfl, rfl, rfl, rfl, rfl, rfl⟩
  simp only [Part000.mergeFailure, joinPipe]
  split
  · rfl
  · rw [String.append_assoc]
    have h : (" | " ++ "Network error" : String) = " | Network error" := by decide
    rw [h]

/-- C8: the three accumulated text fields are append-only.  After merging any
chunk response (success) or any upload failure, the previous value of each of
`original`, `translated`, `notes` is a prefix of the new value (the new value
is the old one followed by some suffix). -/
theorem merge_append_only (s : TranslatorState) (r : ChunkResp) :
    (∃ t, (Part000.mergeSuccess s r).original = s.original ++ t)
    ∧ (∃ t, (Part000.mergeSuccess s r).translated = s.translated ++ t)
    ∧ (∃ t, (Part000.mergeSuccess s r).notes = s.notes ++ t)
    ∧ (∃ t, (Part000.mergeFailure s).notes = s.notes ++ t)
    ∧ (Part000.mergeFailure s).original = s.original
    ∧ (Part000.mergeFailure s).translated = s.translated := by
  refine ⟨?_, ?_, ?_, joinPipe_pref s.notes "Network error", rfl, rfl⟩
  · rw [mergeSuccess_original]
    split
    · exact joinSpace_pref _ _
    · exact ⟨"", (String.append_empty _).symm⟩
  · rw [mergeSuccess_translated]
    split
    · exact joinSpace_pref _ _
    · exact ⟨"", (String.append_empty _).symm⟩
  · rw [mergeSuccess_notes]
    split
    · exact joinPipe_pref _ _
    · exact ⟨"", (String.append_empty _).symm⟩

/-- C9: the `src_lang` / `tgt_lang` form fields of every chunk upload are the
configured language tags truncated at their first hyphen (`tag.split("-")[0]`
equals the wording of the spec, "truncating the full language tag at its first hyphen"),
and on the three supported tags this yields the two-letter codes. -/
theorem sendChunk_lang_fields (s : TranslatorState) :
    sendChunkForm s = (truncAtFirstHyphen s.srcLang, truncAtFirstHyphen s.tgtLang)
    ∧ formLang "en-US" = "en"
    ∧ formLang "hi-IN" = "hi"
    ∧ formLang "es-ES" = "es" := by
  refine ⟨?_, by decide, by decide, by decide⟩
  show (formLang s.srcLang, formLang s.tgtLang) = _
  unfold formLang truncAtFirstHyphen
  rw [jsSplit_headD, jsSplit_headD]

/-- C10: the two shipped `Translator` implementations are observationally
equivalent on session state: on every state, chunk response and device
outcome, the `startRecording` reset, the stop transition, the `sendChunk`
success merge and failure handler, the `autoSpeak` guard-and-disarm, and
`manualSpeak` of part_000 and part_001 produce identical states (the part_000
extra `console.debug` branch has no state effect). -/
theorem parts_observationally_equivalent (s : TranslatorState) (r : ChunkResp)
    (ok : Bool) :
    Part000.startRecording ok s = Part001.startRecording ok s
    ∧ Part000.stopRecording s = Part001.stopRecording s
    ∧ Part000.mergeSuccess s r = Part001.mergeSuccess s r
    ∧ Part000.mergeFailure s = Part001.mergeFailure s
    ∧ Part000.autoSpeak s = Part001.autoSpeak s
    ∧ Part000.manualSpeak s = Part001.manualSpeak s :=
  ⟨rfl, rfl, rfl, rfl, rfl, rfl⟩

/-- C3 (a bug in the code): the claim says the settle-time auto-playback of
`translatedText` fires exactly when `translatedText` is non-empty and the
auto-play right is armed, and that with empty `translatedText` nothing fires
and the right survives.  The program does not do this: the 350 ms timer runs
the `autoSpeak` closure captured when `startRecording` ran, whose
`translated` / `tgtLang` are the committed values from before the session
reset (`autoSpeakStale`); the code comment "Auto-play after a short delay to
allow last chunk responses to arrive" states the intent this defeats.
Concretely: after a first session from a fresh load that accumulated
`"Hello"` (captured snapshot `""`), the settle call does nothing and leaves
the right armed even though `translated = "Hello"`; after a second session
that accumulated nothing (captured snapshot `"Hello"`), the settle call
auto-plays the stale `"Hello"` and consumes the right even though the
current `translated` is empty. -/
theorem autoplay_reads_stale_snapshot :
    session1End.translated = "Hello"
    ∧ session1End.shouldAutoPlay = true
    ∧ autoSpeakStale initState.translated initState.tgtLang session1End
        = session1End
    ∧ (autoSpeakStale initState.translated initState.tgtLang session1End).speech
        = []
    ∧ session2End.translated = ""
    ∧ session2End.shouldAutoPlay = true
    ∧ autoSpeakStale session1End.translated session1End.tgtLang session2End
        = { session2End with
              speech := [⟨"Hello", "hi-IN"⟩]
              shouldAutoPlay := false } := by
  refine ⟨rfl, rfl, by decide, by decide, rfl, rfl, by decide⟩

/-- C5: the notes text of a chunk response (when present, i.e. truthy) is appended
to the user-visible notes field if and only if it does not case-insensitively
contain any of the substrings `"corrupt"`, `"unsupported audio"`,
`"deepgram error"` (the filter regex); a suppressed note leaves the
user-visible notes exactly unchanged, whatever else the same string
contains, and the merge still succeeds (it is a total function). -/
theorem notes_filtered_iff (s : TranslatorState) (r : ChunkResp)
    (h : r.notes ≠ "") :
    (noteFiltered r.notes = false →
        (Part000.mergeSuccess s r).notes = joinPipe s.notes r.notes)
    ∧ (noteFiltered r.notes = true →
        (Part000.mergeSuccess s r).notes = s.notes) := by
  constructor <;> intro hf <;> rw [mergeSuccess_notes]
  · rw [if_pos ⟨h, hf⟩]
  · rw [if_neg]
    simp [hf]

/-- Witness for C5 at concrete inputs: `"chunk was CORRUPT, retrying"` is
suppressed (notes stay `"kept"`) while `"low confidence"` passes the filter
and is appended. -/
theorem notes_filtered_iff_witness :
    ("chunk was CORRUPT, retrying" ≠ "")
    ∧ noteFiltered "chunk was CORRUPT, retrying" = true
    ∧ (Part000.mergeSuccess { initState with notes := "kept" }
        ⟨"", "", "", "", "", "chunk was CORRUPT, retrying"⟩).notes = "kept"
    ∧ noteFiltered "low confidence" = false
    ∧ (Part000.mergeSuccess { initState with notes := "kept" }
        ⟨"", "", "", "", "", "low confidence"⟩).notes = "kept | low confidence" := by
  have h1 := notes_filtered_iff { initState with notes := "kept" }
    ⟨"", "", "", "", "", "chunk was CORRUPT, retrying"⟩ (by decide)
  have h2 := notes_filtered_iff { initState with notes := "kept" }
    ⟨"", "", "", "", "", "low confidence"⟩ (by decide)
  refine ⟨by decide, by decide, h1.2 (by decide), by decide, ?_⟩
  rw [h2.1 (by decide)]
  decide

/-- C6: when the device-access request fails at `startRecording`, the status
becomes the Error status of the spec, `recording` stays false (the UI only
offers Record while not recording), and the recorder cadence is not
started — the session does not start. -/
theorem device_denied_no_session (s : TranslatorState)
    (h1 : s.recording = false) (h2 : s.recorderActive = false) :
    statusAbs (Part000.startRecording false s).status = SpecStatus.Error
    ∧ (Part000.startRecording false s).recording = false
    ∧ (Part000.startRecording false s).recorderActive = false :=
  ⟨rfl, h1, h2⟩

/-- Witness for C6 at the initial state. -/
theorem device_denied_no_session_witness :
    initState.recording = false ∧ initState.recorderActive = false
    ∧ statusAbs (Part000.startRecording false initState).status = SpecStatus.Error
    ∧ (Part000.startRecording false initState).recording = false
    ∧ (Part000.startRecording false initState).recorderActive = false := by
  have h := device_denied_no_session initState rfl rfl
  exact ⟨rfl, rfl, h.1, h.2.1, h.2.2⟩

/-- C7 counterexample: `replay()` does not speak unconditionally.  In a state
with empty `translated` and an utterance still playing, `manualSpeak`
returns without cancelling anything (the old utterance keeps playing),
whereas the claim requires it to first cancel the in-progress playback and
speak the current (empty) `translated`, which would leave the queue
`[⟨"", "hi-IN"⟩]`. -/
theorem replay_unconditional_cex :
    Part000.manualSpeak { initState with speech := [⟨"old", "hi-IN"⟩] }
      = { initState with speech := [⟨"old", "hi-IN"⟩] }
    ∧ ¬ (Part000.manualSpeak { initState with speech := [⟨"old", "hi-IN"⟩] }
          = { initState with speech := [⟨"", "hi-IN"⟩] }) := by
  constructor
  · decide
  · decide

/-- C7 (amended): whenever `translated` is non-empty, `replay()`
(`manualSpeak`) cancels any in-progress playback and speaks the current
`translated`, so two calls in quick succession leave exactly one utterance;
when `translated` is empty it does nothing (neither speaks nor cancels); it
may be invoked any number of times and neither consumes nor requires the
auto-play right. -/
theorem replay_speaks_translated (s : TranslatorState) :
    (s.translated ≠ "" →
        Part000.manualSpeak s = { s with speech := [⟨s.translated, s.tgtLang⟩] })
    ∧ (s.translated = "" → Part000.manualSpeak s = s)
    ∧ (Part000.manualSpeak s).shouldAutoPlay = s.shouldAutoPlay
    ∧ (s.translated ≠ "" →
        (Part000.manualSpeak (Part000.manualSpeak s)).speech = [⟨s.translated, s.tgtLang⟩]) := by
  refine ⟨?_, ?_, manualSpeak_shouldAutoPlay s, ?_⟩
  · intro h
    simp [Part000.manualSpeak, h]
  · intro h
    simp [Part000.manualSpeak, h]
  · intro h
    simp [Part000.manualSpeak, h]

/-- Witness for the amended C7 at a concrete state with a playing utterance
and a non-empty translation: one replay replaces the queue with the single
new utterance, a second replay leaves exactly that one utterance, and the
empty-translation case is a no-op. -/
theorem replay_speaks_translated_witness :
    Part000.manualSpeak { initState with translated := "Hola", speech := [⟨"old", "hi-IN"⟩] }
      = { initState with translated := "Hola", speech := [⟨"Hola", "hi-IN"⟩] }
    ∧ (Part000.manualSpeak (Part000.manualSpeak
        { initState with translated := "Hola", speech := [⟨"old", "hi-IN"⟩] })).speech
      = [⟨"Hola", "hi-IN"⟩]
    ∧ Part000.manualSpeak initState = initState := by
  have h := replay_speaks_translated
    { initState with translated := "Hola", speech := [⟨"old", "hi-IN"⟩] }
  have h2 := replay_speaks_translated initState
  exact ⟨h.1 (by decide), h.2.2.2 (by decide), h2.2.1 rfl⟩
